import Mathlib

/-!
# TigerTix — verification of the ticket-inventory and token-lifecycle core

Shallow embedding of the TigerTix backend's ticket-inventory operations
(`clientModel.purchaseTicket`, `llmModel.confirmBooking` and their HTTP
controllers) and of the refresh-token lifecycle
(`authModel.findRefreshToken` / `revokeRefreshToken` / `revokeAllUserTokens`
and the `refresh` / `logout` / `logoutAll` controllers).

The SQLite store is modelled as a list of rows; one request-handler runs at a
time, so an operation is a function from the store to an
`outcome × updated store` pair.  `db.run` callbacks with `this.changes` are
modelled by counting the rows matched by the UPDATE's WHERE clause.  The JS
promise discipline matters in one place: a `reject(...)` settles the promise
but does not stop execution unless followed by `return`, so later SQL
statements still run; the embedding of `purchaseTicket` reproduces this by
computing the settled outcome separately from the store side effects.
Monetary amounts (`price REAL`) are modelled as integers; `toFixed(2)`
formatting of `total_price` is dropped, keeping the value `price * quantity`.
-/

/-- A row of the `events` table (shared-db schema).  `id` is `INTEGER PRIMARY
KEY`; `available_tickets` is stored as a plain integer column, so it can in
principle hold negative values — whether it does is exactly what is at stake
below. -/
structure Event where
  id : Int
  name : String
  date : String
  available_tickets : Int
  total_tickets : Int
  price : Int
deriving DecidableEq

/-- `SELECT ... FROM events WHERE id = ?` via `db.get`: the first matching
row, if any. -/
def findEvent (eventId : Int) (db : List Event) : Option Event :=
  db.find? (fun e => e.id == eventId)

/-- `UPDATE events SET available_tickets = available_tickets - ? WHERE id = ?`:
every row matched by the WHERE clause is decremented. -/
def decrementEvent (eventId : Int) (q : Int) (db : List Event) : List Event :=
  db.map (fun e =>
    if e.id == eventId then { e with available_tickets := e.available_tickets - q } else e)

/-- `this.changes` of that UPDATE: the number of rows matched by
`WHERE id = ?`. -/
def matchCount (eventId : Int) (db : List Event) : Nat :=
  (db.filter (fun e => e.id == eventId)).length

/-- The rejection values raised inside `llmModel.confirmBooking`. -/
inductive BookingError where
  | eventNotFound
  | notEnoughTickets (remaining : Int)
  | updateFailed
deriving DecidableEq

/-- The `Error(...).message` string each rejection carries (the llm
controller dispatches on these strings). -/
def BookingError.message : BookingError → String
  | .eventNotFound => "Event not found"
  | .notEnoughTickets n =>
      "Not enough tickets available. Only " ++ toString n ++ " tickets remaining."
  | .updateFailed => "Failed to update ticket count"

/-- The object `llmModel.confirmBooking` resolves with on success. -/
structure BookingPayload where
  event_id : Int
  event_name : String
  event_date : String
  tickets_booked : Int
  remaining_tickets : Int
  total_price : Int
deriving DecidableEq

/-- `llmModel.confirmBooking(eventId, ticketCount)`:
`BEGIN TRANSACTION`; `SELECT * FROM events WHERE id = ?` (reject
`Event not found` and `ROLLBACK` if no row); reject
`Not enough tickets available. Only N tickets remaining.` and `ROLLBACK` if
`available_tickets < ticketCount`; run the decrementing UPDATE, rejecting
`Failed to update ticket count` with `ROLLBACK` if `this.changes === 0`;
re-`SELECT` the row and `COMMIT`, resolving with the booking payload
(`total_price = price * ticketCount`).  A rollback leaves the store as it
was; the commit publishes the updated store.  (The final re-`SELECT` cannot
miss: the row just updated is still present, so the last branch below is
unreachable.) -/
def confirmBooking (eventId : Int) (ticketCount : Int) (db : List Event) :
    Except BookingError BookingPayload × List Event :=
  match db.find? (fun e => e.id == eventId) with
  | none => (.error .eventNotFound, db)
  | some event =>
    if event.available_tickets < ticketCount then
      (.error (.notEnoughTickets event.available_tickets), db)
    else
      let db' := decrementEvent eventId ticketCount db
      if matchCount eventId db = 0 then
        (.error .updateFailed, db)
      else
        match db'.find? (fun e => e.id == eventId) with
        | some updatedEvent =>
            (.ok { event_id := updatedEvent.id
                   event_name := updatedEvent.name
                   event_date := updatedEvent.date
                   tickets_booked := ticketCount
                   remaining_tickets := updatedEvent.available_tickets
                   total_price := updatedEvent.price * ticketCount }, db')
        | none => (.error .updateFailed, db)

/-- How a `clientModel.purchaseTicket` promise settles. -/
inductive PurchaseOutcome where
  | eventNotFound
  /-- reject `No tickets available` -/
  | noTickets
  /-- the success path calls `clientModel.getEventByID`, which the class
  never defines, so the promise is never resolved -/
  | crashed
deriving DecidableEq

/-- `clientModel.purchaseTicket(eventID)`: `SELECT available_tickets FROM
events WHERE id = ?`; reject `Event not found` (and return) if no row; reject
`No tickets available` if `available_tickets <= 0` — **without** a `return`,
so the decrementing UPDATE below still runs; run
`UPDATE events SET available_tickets = available_tickets - 1 WHERE id = ?`
with no transaction framing; reject `Event not found` if `this.changes === 0`;
otherwise call the undefined `clientModel.getEventByID`.  A promise keeps the
first settlement, so the sold-out rejection wins even though the UPDATE has
already been applied to the store. -/
def purchaseTicket (eventID : Int) (db : List Event) :
    PurchaseOutcome × List Event :=
  match db.find? (fun e => e.id == eventID) with
  | none => (.eventNotFound, db)
  | some row =>
    let db' := decrementEvent eventID 1 db
    let firstSettle : Option PurchaseOutcome :=
      if row.available_tickets ≤ 0 then some .noTickets else none
    let afterUpdate : PurchaseOutcome :=
      if matchCount eventID db = 0 then .eventNotFound else .crashed
    (firstSettle.getD afterUpdate, db')

/-- Body of `POST /api/llm/confirm-booking`; `none` models an absent field. -/
structure ConfirmRequest where
  event_id : Option Int
  tickets : Option Int
deriving DecidableEq

/-- JS truthiness of a (numeric) body field: `undefined` and `0` are falsy. -/
def truthyInt : Option Int → Bool
  | none => false
  | some n => !(n == 0)

/-- The JSON the llm controller sends back (status plus the fields the
claims are about). -/
structure ConfirmResponse where
  status : Nat
  error : Option String
  booking : Option BookingPayload
deriving DecidableEq

/-- JS `String.prototype.includes`: the needle occurs contiguously in `s`. -/
def strIncludes (needle s : String) : Bool :=
  s.toList.tails.any (fun t => needle.toList.isPrefixOf t)

/-- The llm controller's `confirmBooking` handler: reject with
`400 event_id and tickets are required` if either body field is falsy;
reject `400 Invalid event_id or ticket count` if the count is not positive;
otherwise run `llmModel.confirmBooking` and translate its rejection message
(`=== 'Event not found'` → 404, `includes('Not enough tickets')` → 400 with
the message itself, anything else → 500). -/
def confirmBookingController (req : ConfirmRequest) (db : List Event) :
    ConfirmResponse × List Event :=
  if !truthyInt req.event_id || !truthyInt req.tickets then
    ({ status := 400, error := some "event_id and tickets are required",
       booking := none }, db)
  else
    let eventId : Int := req.event_id.getD 0
    let ticketCount : Int := req.tickets.getD 0
    if ticketCount ≤ 0 then
      ({ status := 400, error := some "Invalid event_id or ticket count",
         booking := none }, db)
    else
      match confirmBooking eventId ticketCount db with
      | (.ok result, db') =>
          ({ status := 200, error := none, booking := some result }, db')
      | (.error e, db') =>
          if e.message == "Event not found" then
            ({ status := 404, error := some "Event not found", booking := none }, db')
          else if strIncludes "Not enough tickets" e.message then
            ({ status := 400, error := some e.message, booking := none }, db')
          else
            ({ status := 500,
               error := some "Failed to complete booking. Please try again.",
               booking := none }, db')

/-- What the client-service purchase controller sends back; `noResponse`
models the handler awaiting a promise that never settles (the success path of
`purchaseTicket` calls a method that does not exist). -/
inductive ClientResponse where
  | badRequest (error : String)
  | notFound (error : String)
  | noResponse
deriving DecidableEq

/-- `clientController.purchaseTicket` for `POST /:id/purchase`: 400 if the
path parameter is missing, otherwise await `clientModel.purchaseTicket` and
translate its rejection message. -/
def purchaseTicketController (eventID : Option Int) (db : List Event) :
    ClientResponse × List Event :=
  match eventID with
  | none => (.badRequest "Event ID is required", db)
  | some eid =>
    match purchaseTicket eid db with
    | (.eventNotFound, db') => (.notFound "Event not found", db')
    | (.noTickets, db') => (.badRequest "No tickets availabe for this event", db')
    | (.crashed, db') => (.noResponse, db')

/-- A row of the `refresh_tokens` table (`token` carries a `UNIQUE`
constraint; `revoked INTEGER DEFAULT 0`). -/
structure TokenRecord where
  user_id : Nat
  token : String
  expires_at : Nat
  revoked : Bool
deriving DecidableEq

/-- A row of the `users` table, reduced to the fields the token lifecycle
reads. -/
structure UserRec where
  id : Nat
  is_active : Bool
deriving DecidableEq

/-- `authModel.findRefreshToken`: `SELECT * FROM refresh_tokens WHERE
token = ? AND revoked = 0 AND datetime(expires_at) > datetime('now')`. -/
def findRefreshToken (token : String) (now : Nat) (db : List TokenRecord) :
    Option TokenRecord :=
  db.find? (fun r => r.token == token && !r.revoked && decide (now < r.expires_at))

/-- `authModel.revokeRefreshToken`: `UPDATE refresh_tokens SET revoked = 1
WHERE token = ?`, resolving `true` regardless of how many rows matched. -/
def revokeRefreshToken (token : String) (db : List TokenRecord) :
    Bool × List TokenRecord :=
  (true,
   db.map (fun r => if r.token == token then { r with revoked := true } else r))

/-- `authModel.revokeAllUserTokens`: `UPDATE refresh_tokens SET revoked = 1
WHERE user_id = ? AND revoked = 0`, resolving `this.changes` (the number of
rows the WHERE clause matched). -/
def revokeAllUserTokens (userId : Nat) (db : List TokenRecord) :
    Nat × List TokenRecord :=
  ((db.filter (fun r => r.user_id == userId && !r.revoked)).length,
   db.map (fun r =>
     if r.user_id == userId && !r.revoked then { r with revoked := true } else r))

/-- `authModel.findUserById`: `SELECT ... FROM users WHERE id = ? AND
is_active = 1`. -/
def findUserById (userId : Nat) (users : List UserRec) : Option UserRec :=
  users.find? (fun u => u.id == userId && u.is_active)

/-- The identity-domain store plus the clock the SQL `datetime('now')`
comparisons read. -/
structure AuthState where
  users : List UserRec
  tokens : List TokenRecord
  now : Nat
deriving DecidableEq

/-- How the `POST /api/auth/refresh` handler responds. -/
inductive RefreshOutcome where
  /-- 400 `Missing refresh token` -/
  | missingToken
  /-- 401: `verifyRefreshToken` threw (bad signature / expired / wrong type) -/
  | invalidToken
  /-- 401 `Refresh token has been revoked or does not exist.` -/
  | revokedOrMissing
  /-- 401 `User not found` -/
  | userNotFound
  /-- 200 with the fresh token pair -/
  | refreshed (accessToken refreshToken : String)
deriving DecidableEq

/-- Whether the outcome is the 200 success. -/
def RefreshOutcome.isRefreshed : RefreshOutcome → Bool
  | .refreshed _ _ => true
  | _ => false

/-- `authController.refresh`:  reject 400 on a falsy body token; verify the
JWT signature (`decode`, a stateless function of the token string, yields the
embedded `userId` or fails); look the token up with `findRefreshToken`
(reject 401 if absent/revoked/expired); look the user up with `findUserById`
(reject 401 if gone/inactive); `generateTokenPair` (the fresh strings
`newAccess`/`newRefresh` and expiry `newExp` are inputs, since signing is
keyed and salted with a random `jti`); `storeRefreshToken` the new refresh
token; then `revokeRefreshToken` the token just consumed. -/
def refresh (decode : String → Option Nat) (refreshToken : String)
    (newAccess newRefresh : String) (newExp : Nat) (st : AuthState) :
    RefreshOutcome × AuthState :=
  if refreshToken == "" then (.missingToken, st)
  else
    match decode refreshToken with
    | none => (.invalidToken, st)
    | some userId =>
      match findRefreshToken refreshToken st.now st.tokens with
      | none => (.revokedOrMissing, st)
      | some _ =>
        match findUserById userId st.users with
        | none => (.userNotFound, st)
        | some user =>
          let tokens1 := st.tokens ++
            [{ user_id := user.id, token := newRefresh, expires_at := newExp,
               revoked := false }]
          let tokens2 := (revokeRefreshToken refreshToken tokens1).2
          (.refreshed newAccess newRefresh, { st with tokens := tokens2 })

/-- How the `POST /api/auth/logout` handler responds. -/
inductive LogoutOutcome where
  /-- 400 `Missing refresh token` -/
  | missingToken
  /-- 200 `Logout successful` -/
  | loggedOut
deriving DecidableEq

/-- `authController.logout`: 400 on a falsy body token, otherwise
`revokeRefreshToken` and respond 200 `Logout successful` unconditionally. -/
def logout (refreshToken : String) (st : AuthState) :
    LogoutOutcome × AuthState :=
  if refreshToken == "" then (.missingToken, st)
  else (.loggedOut, { st with tokens := (revokeRefreshToken refreshToken st.tokens).2 })

/-- `authController.logoutAll`: revoke every active token of the
authenticated user and report the count. -/
def logoutAll (userId : Nat) (st : AuthState) : Nat × AuthState :=
  let r := revokeAllUserTokens userId st.tokens
  (r.1, { st with tokens := r.2 })

/-- A one-event store that satisfies the inventory invariant and is sold
out: `available_tickets = 0 ≤ total_tickets = 5`. -/
def eventsAtZero : List Event :=
  [{ id := 1, name := "Jazz Night", date := "2025-04-01",
     available_tickets := 0, total_tickets := 5, price := 10 }]

/-- C1: the committed state is claimed to always satisfy
`0 ≤ available_tickets ≤ total_tickets` under both purchase operations.  The
single-ticket path refutes this: starting from a store satisfying the
invariant with `available_tickets = 0`, `purchaseTicket` rejects
`No tickets available` yet still applies the decrement (the rejection is not
followed by `return` and there is no transaction to roll back), committing
`available_tickets = -1`. -/
theorem purchase_at_zero_breaks_inventory_invariant :
    eventsAtZero.all
      (fun e => decide (0 ≤ e.available_tickets) &&
                decide (e.available_tickets ≤ e.total_tickets)) = true
    ∧ (purchaseTicket 1 eventsAtZero).1 = PurchaseOutcome.noTickets
    ∧ (purchaseTicket 1 eventsAtZero).2.map Event.available_tickets = [-1] := by
  decide

/-- C2: a purchase failing the sufficiency check is claimed to leave
`available_tickets` unchanged.  The single-ticket path refutes this: at
`available_tickets = 0` it settles on the insufficient-inventory rejection
but the store after the call differs from the store before it (the row was
decremented to `-1`). -/
theorem failed_purchase_mutates_store :
    (purchaseTicket 1 eventsAtZero).1 = PurchaseOutcome.noTickets
    ∧ (purchaseTicket 1 eventsAtZero).2 ≠ eventsAtZero := by
  decide

/-- C3: the single-ticket path is claimed to be the quantity-based algorithm
at `quantity = 1`, with the sufficiency pre-check guarding the decrement
inside one atomic scope.  Refuted: on the same sold-out store,
`confirmBooking` with quantity 1 rolls back and leaves the store unchanged,
while `purchaseTicket` — whose pre-check does not guard its bare UPDATE —
leaves a different (decremented) store. -/
theorem single_ticket_path_differs_from_quantity_one :
    (confirmBooking 1 1 eventsAtZero).2 = eventsAtZero
    ∧ (purchaseTicket 1 eventsAtZero).2 ≠ (confirmBooking 1 1 eventsAtZero).2 := by
  decide

/-- The UPDATE preserves row order and ids, so re-selecting by id after it
returns the decremented image of the row the transaction first read. -/
theorem find?_decrementEvent (eventId q : Int) (db : List Event) :
    (decrementEvent eventId q db).find? (fun e => e.id == eventId)
      = (db.find? (fun e => e.id == eventId)).map
          (fun e => { e with available_tickets := e.available_tickets - q }) := by
  induction db with
  | nil => rfl
  | cons a t ih =>
    simp only [decrementEvent, List.map_cons]
    by_cases h : (a.id == eventId) = true
    · rw [if_pos h]
      rw [List.find?_cons_of_pos (p := fun e : Event => e.id == eventId) _ h]
      simp [List.find?_cons, h]
    · rw [if_neg h]
      rw [List.find?_cons_of_neg (p := fun e : Event => e.id == eventId) _ h]
      rw [List.find?_cons_of_neg (p := fun e : Event => e.id == eventId) _ h]
      exact ih

/-- The UPDATE matches zero rows exactly when the existence SELECT finds no
row. -/
theorem matchCount_eq_zero_iff (eventId : Int) (db : List Event) :
    matchCount eventId db = 0 ↔ db.find? (fun e => e.id == eventId) = none := by
  simp [matchCount, List.length_eq_zero, List.filter_eq_nil_iff,
    List.find?_eq_none]

/-- C4: the booking confirm operation follows the specified algorithm —
no commit on any error path (the store is returned unchanged whenever the
outcome is an error); a zero-rows-affected UPDATE can only mean the row was
absent, in which case the operation fails with the event-not-found error;
an absent row fails with the event-not-found error and an insufficient row
fails with the insufficient-inventory error, both without any partial
decrement; and a sufficient row commits the single id-scoped decrement and
answers the re-read payload
`{event_id, event_name, event_date, tickets_booked, remaining_tickets,
total_price}`. -/
theorem confirmBooking_follows_algorithm (db : List Event) (eventId q : Int)
    (hq : 0 < q) :
    ((confirmBooking eventId q db).1.isOk = false →
       (confirmBooking eventId q db).2 = db)
    ∧ (matchCount eventId db = 0 →
       (confirmBooking eventId q db).1 = .error .eventNotFound)
    ∧ (match findEvent eventId db with
       | none => confirmBooking eventId q db = (.error .eventNotFound, db)
       | some ev =>
         (ev.available_tickets < q →
            confirmBooking eventId q db
              = (.error (.notEnoughTickets ev.available_tickets), db))
         ∧ (q ≤ ev.available_tickets →
            confirmBooking eventId q db
              = (.ok { event_id := ev.id, event_name := ev.name,
                       event_date := ev.date, tickets_booked := q,
                       remaining_tickets := ev.available_tickets - q,
                       total_price := ev.price * q },
                 decrementEvent eventId q db))) := by
  cases hfind : db.find? (fun e => e.id == eventId) with
  | none =>
    refine ⟨?_, ?_, ?_⟩
    · intro _; simp [confirmBooking, hfind]
    · intro _; simp [confirmBooking, hfind]
    · simp only [findEvent, hfind]
      simp [confirmBooking, hfind]
  | some ev =>
    have hmc : ¬ matchCount eventId db = 0 := by
      intro h0
      have := (matchCount_eq_zero_iff eventId db).mp h0
      rw [hfind] at this
      cases this
    refine ⟨?_, ?_, ?_⟩
    · by_cases hlt : ev.available_tickets < q
      · intro _; simp [confirmBooking, hfind, hlt]
      · intro hok
        simp [confirmBooking, hfind, hlt, hmc, find?_decrementEvent,
          Except.isOk, Except.toBool] at hok
    · intro h0; exact absurd h0 hmc
    · simp only [findEvent, hfind]
      constructor
      · intro hlt; simp [confirmBooking, hfind, hlt]
      · intro hge
        have hlt : ¬ ev.available_tickets < q := not_lt.mpr hge
        simp [confirmBooking, hfind, hlt, hmc, find?_decrementEvent]

/-- A one-event store with enough inventory for the concrete booking used to
instantiate the C4 theorem. -/
def eventsW : List Event :=
  [{ id := 1, name := "Spring Game", date := "2025-09-01",
     available_tickets := 7, total_tickets := 9, price := 4 }]

/-- C4 witness: the algorithm theorem evaluated at a concrete store and a
concrete positive quantity. -/
theorem confirmBooking_follows_algorithm_witness :
    0 < (2:Int)
    ∧ (((confirmBooking 1 2 eventsW).1.isOk = false →
          (confirmBooking 1 2 eventsW).2 = eventsW)
       ∧ (matchCount 1 eventsW = 0 →
          (confirmBooking 1 2 eventsW).1 = .error .eventNotFound)
       ∧ (match findEvent 1 eventsW with
          | none => confirmBooking 1 2 eventsW = (.error .eventNotFound, eventsW)
          | some ev =>
            (ev.available_tickets < 2 →
               confirmBooking 1 2 eventsW
                 = (.error (.notEnoughTickets ev.available_tickets), eventsW))
            ∧ (2 ≤ ev.available_tickets →
               confirmBooking 1 2 eventsW
                 = (.ok { event_id := ev.id, event_name := ev.name,
                          event_date := ev.date, tickets_booked := 2,
                          remaining_tickets := ev.available_tickets - 2,
                          total_price := ev.price * 2 },
                    decrementEvent 1 2 eventsW)))) :=
  ⟨by decide, confirmBooking_follows_algorithm eventsW 1 2 (by decide)⟩

/-- After `revokeRefreshToken`, the active-token lookup can no longer find
the token: every row bearing it is revoked, and rows not bearing it never
matched the lookup in the first place. -/
theorem findRefreshToken_after_revoke (tok : String) (now : Nat)
    (db : List TokenRecord) :
    findRefreshToken tok now (revokeRefreshToken tok db).2 = none := by
  unfold findRefreshToken revokeRefreshToken
  rw [List.find?_eq_none]
  intro x hx
  rcases List.mem_map.mp hx with ⟨r, hr, rfl⟩
  by_cases h : (r.token == tok) = true
  · rw [if_pos h]; simp
  · rw [if_neg h]
    rw [Bool.not_eq_true] at h
    simp [h]

/-- C5: a successful `refresh(tokenA)` flips every store row bearing
`tokenA` to revoked as part of the same operation, the active-token lookup
no longer finds `tokenA` afterwards, and any subsequent `refresh(tokenA)`
fails with the revoked-token outcome. -/
theorem refresh_rotation_invalidates_old_token
    (decode : String → Option Nat) (tokA newA newR : String) (newExp : Nat)
    (st : AuthState) (a r : String)
    (hok : (refresh decode tokA newA newR newExp st).1
             = RefreshOutcome.refreshed a r) :
    (∀ x ∈ ((refresh decode tokA newA newR newExp st).2).tokens,
        x.token = tokA → x.revoked = true)
    ∧ findRefreshToken tokA
        ((refresh decode tokA newA newR newExp st).2).now
        ((refresh decode tokA newA newR newExp st).2).tokens = none
    ∧ ∀ a2 r2 e2,
        (refresh decode tokA a2 r2 e2
           ((refresh decode tokA newA newR newExp st).2)).1
          = RefreshOutcome.revokedOrMissing := by
  by_cases hA : (tokA == "") = true
  · simp [refresh, hA] at hok
  cases d : decode tokA with
  | none => simp [refresh, hA, d] at hok
  | some uid =>
    cases f : findRefreshToken tokA st.now st.tokens with
    | none => simp [refresh, hA, d, f] at hok
    | some trec =>
      cases u : findUserById uid st.users with
      | none => simp [refresh, hA, d, f, u] at hok
      | some user =>
        have hE : refresh decode tokA newA newR newExp st
            = (.refreshed newA newR,
               { st with tokens :=
                   (revokeRefreshToken tokA (st.tokens ++
                     [{ user_id := user.id, token := newR,
                        expires_at := newExp, revoked := false }])).2 }) := by
          simp [refresh, hA, d, f, u]
        refine ⟨?_, ?_, ?_⟩
        · rw [hE]
          intro x hx hxtok
          rcases List.mem_map.mp hx with ⟨y, hy, rfl⟩
          by_cases ht : (y.token == tokA) = true
          · rw [if_pos ht]
          · rw [if_neg ht] at hxtok ⊢
            exact absurd (beq_iff_eq.mpr hxtok) ht
        · rw [hE]
          exact findRefreshToken_after_revoke tokA st.now _
        · intro a2 r2 e2
          set S := (refresh decode tokA newA newR newExp st).2 with hS
          have h2 : findRefreshToken tokA S.now S.tokens = none := by
            rw [hS, hE]
            exact findRefreshToken_after_revoke tokA st.now _
          simp [refresh, hA, d, h2]

/-- Stateless verification of the concrete rotation witness's refresh token:
the only token with a valid signature is `tokA`, owned by user 7. -/
def decodeW : String → Option Nat :=
  fun s => if s == "tokA" then some 7 else none

/-- Concrete auth store for the rotation witness: one active user, one
active refresh-token row. -/
def authStW : AuthState :=
  { users := [{ id := 7, is_active := true }],
    tokens := [{ user_id := 7, token := "tokA", expires_at := 100,
                 revoked := false }],
    now := 50 }

/-- C5 witness: the rotation theorem evaluated on the concrete store, where
`refresh` of `tokA` succeeds and returns the pair `(accB, tokB)`. -/
theorem refresh_rotation_witness :
    (∀ x ∈ ((refresh decodeW "tokA" "accB" "tokB" 200 authStW).2).tokens,
        x.token = "tokA" → x.revoked = true)
    ∧ findRefreshToken "tokA"
        ((refresh decodeW "tokA" "accB" "tokB" 200 authStW).2).now
        ((refresh decodeW "tokA" "accB" "tokB" 200 authStW).2).tokens = none
    ∧ ∀ a2 r2 e2,
        (refresh decodeW "tokA" a2 r2 e2
           ((refresh decodeW "tokA" "accB" "tokB" 200 authStW).2)).1
          = RefreshOutcome.revokedOrMissing :=
  refresh_rotation_invalidates_old_token decodeW "tokA" "accB" "tokB" 200
    authStW "accB" "tokB" rfl

/-- C6: revocation is idempotent — `revoke(token)` resolves success both
times, the second call is a no-op on the store, and a token that has been
revoked (once or twice, the stores coincide) can never be refreshed. -/
theorem revoke_idempotent_and_invalidating
    (tok : String) (db : List TokenRecord) (users : List UserRec) (now : Nat)
    (decode : String → Option Nat) (a r : String) (e : Nat) :
    (revokeRefreshToken tok db).1 = true
    ∧ (revokeRefreshToken tok (revokeRefreshToken tok db).2).1 = true
    ∧ (revokeRefreshToken tok (revokeRefreshToken tok db).2).2
        = (revokeRefreshToken tok db).2
    ∧ (refresh decode tok a r e
         { users := users, tokens := (revokeRefreshToken tok db).2,
           now := now }).1.isRefreshed = false := by
  refine ⟨rfl, rfl, ?_, ?_⟩
  · simp only [revokeRefreshToken]
    rw [List.map_map]
    apply List.map_congr_left
    intro y hy
    by_cases ht : (y.token == tok) = true
    · simp [Function.comp, ht]
    · simp [Function.comp, ht]
  · by_cases hA : (tok == "") = true
    · simp [refresh, hA, RefreshOutcome.isRefreshed]
    · cases d : decode tok with
      | none => simp [refresh, hA, d, RefreshOutcome.isRefreshed]
      | some uid =>
        have h2 := findRefreshToken_after_revoke tok now db
        simp [refresh, hA, d, h2, RefreshOutcome.isRefreshed]

/-- C10: the logout handler reports success for any non-empty token string,
whether or not the store holds a matching row; when no row matches, the
revoking UPDATE touches zero rows and the store is unchanged. -/
theorem logout_succeeds_for_unknown_token (tok : String) (st : AuthState)
    (hne : tok ≠ "") :
    (logout tok st).1 = LogoutOutcome.loggedOut
    ∧ ((∀ x ∈ st.tokens, x.token ≠ tok) → (logout tok st).2 = st) := by
  have hA : ¬ ((tok == "") = true) := by simpa using hne
  constructor
  · simp [logout, hA]
  · intro habs
    have h2 : ∀ x ∈ st.tokens,
        (if x.token == tok then { x with revoked := true } else x) = x := by
      intro x hx
      rw [if_neg]
      simp [habs x hx]
    have h1 : st.tokens.map
        (fun x => if x.token == tok then { x with revoked := true } else x)
        = st.tokens :=
      (List.map_congr_left h2).trans (List.map_id' _)
    have h3 : (logout tok st).2
        = { st with tokens :=
              (st.tokens.map
                (fun x => if x.token == tok then { x with revoked := true } else x)) } := by
      simp only [logout, revokeRefreshToken]
      rw [if_neg hA]
    rw [h3, h1]

/-- Auth store for the C10 witness: a single token row whose string differs
from the one being logged out. -/
def ghostStW : AuthState :=
  { users := [],
    tokens := [{ user_id := 1, token := "real", expires_at := 10,
                 revoked := false }],
    now := 0 }

/-- C10 witness: logging out the never-issued token `ghost` against the
concrete store succeeds with the 200 outcome and leaves the store as it
was. -/
theorem logout_unknown_token_witness :
    "ghost" ≠ ""
    ∧ ((logout "ghost" ghostStW).1 = LogoutOutcome.loggedOut
       ∧ ((∀ x ∈ ghostStW.tokens, x.token ≠ "ghost") →
            (logout "ghost" ghostStW).2 = ghostStW)) :=
  ⟨by decide, logout_succeeds_for_unknown_token "ghost" ghostStW (by decide)⟩

/-- The count `revokeAllUserTokens` reports (`this.changes` of its UPDATE)
equals the number of rows whose revoked flag the call actually flipped from
unset to set. -/
theorem revokeAll_count_eq_flipped (uid : Nat) (l : List TokenRecord) :
    (revokeAllUserTokens uid l).1
      = ((l.zip (revokeAllUserTokens uid l).2).filter
          (fun p => !p.1.revoked && p.2.revoked)).length := by
  simp only [revokeAllUserTokens]
  induction l with
  | nil => rfl
  | cons x t ih =>
    simp only [List.map_cons, List.zip_cons_cons, List.filter_cons]
    by_cases h : (x.user_id == uid && !x.revoked) = true
    · have hx : (!x.revoked) = true := (Bool.and_eq_true _ _).mp h |>.2
      rw [if_pos h, if_pos h]
      rw [if_pos (by simp [hx])]
      simpa using ih
    · rw [if_neg h, if_neg h]
      rw [if_neg (by cases hb : x.revoked <;> simp [hb])]
      exact ih

/-- After `revokeAllUserTokens(uid)`, the active-token lookup fails for
every token string that belonged to an unrevoked row of that user
(`token` is UNIQUE, so no other row can carry the same string). -/
theorem findRefreshToken_after_revokeAll (uid : Nat) (l : List TokenRecord)
    (hU : (l.map TokenRecord.token).Nodup)
    (x : TokenRecord) (hx : x ∈ l) (hxu : x.user_id = uid)
    (hxr : x.revoked = false) (now : Nat) :
    findRefreshToken x.token now (revokeAllUserTokens uid l).2 = none := by
  unfold findRefreshToken revokeAllUserTokens
  rw [List.find?_eq_none]
  intro y hy
  rcases List.mem_map.mp hy with ⟨z, hz, rfl⟩
  by_cases h : (z.user_id == uid && !z.revoked) = true
  · rw [if_pos h]; simp
  · rw [if_neg h]
    by_cases htok : (z.token == x.token) = true
    · have hzx : z = x :=
        List.inj_on_of_nodup_map hU hz hx (by simpa using htok)
      exact absurd (by simp [hzx, hxu, hxr]) h
    · simp [htok]

/-- C7: `revokeAll(userId)` reports exactly the number of rows it flipped
from unset to set (already-revoked rows are not counted), and afterwards
every previously active (unrevoked, unexpired) refresh token of that user —
assuming the store's UNIQUE constraint on token strings — fails to
refresh. -/
theorem revokeAll_flips_and_counts (uid : Nat) (st : AuthState)
    (hU : (st.tokens.map TokenRecord.token).Nodup) :
    (logoutAll uid st).1
      = ((st.tokens.zip ((logoutAll uid st).2).tokens).filter
          (fun p => !p.1.revoked && p.2.revoked)).length
    ∧ ∀ x ∈ st.tokens, x.user_id = uid → x.revoked = false →
        st.now < x.expires_at →
        ∀ decode a r e,
          (refresh decode x.token a r e (logoutAll uid st).2).1.isRefreshed
            = false := by
  constructor
  · exact revokeAll_count_eq_flipped uid st.tokens
  · intro x hx hxu hxr hxe decode a r e
    have h2 : findRefreshToken x.token ((logoutAll uid st).2).now
        ((logoutAll uid st).2).tokens = none :=
      findRefreshToken_after_revokeAll uid st.tokens hU x hx hxu hxr st.now
    by_cases hA : (x.token == "") = true
    · simp [refresh, hA, RefreshOutcome.isRefreshed]
    · cases d : decode x.token with
      | none => simp [refresh, hA, d, RefreshOutcome.isRefreshed]
      | some u2 => simp [refresh, hA, d, h2, RefreshOutcome.isRefreshed]

/-- Auth store for the C7 witness: user 3 holds one active and one
already-revoked token, user 4 holds an active token; all token strings are
distinct. -/
def revokeAllStW : AuthState :=
  { users := [],
    tokens := [
      { user_id := 3, token := "t1", expires_at := 100, revoked := false },
      { user_id := 3, token := "t2", expires_at := 100, revoked := true },
      { user_id := 4, token := "t3", expires_at := 100, revoked := false }],
    now := 10 }

/-- C7 witness: the logout-all completeness theorem evaluated on the
concrete store. -/
theorem revokeAll_flips_and_counts_witness :
    ((revokeAllStW.tokens.map TokenRecord.token).Nodup)
    ∧ ((logoutAll 3 revokeAllStW).1
        = ((revokeAllStW.tokens.zip ((logoutAll 3 revokeAllStW).2).tokens).filter
            (fun p => !p.1.revoked && p.2.revoked)).length
       ∧ ∀ x ∈ revokeAllStW.tokens, x.user_id = 3 → x.revoked = false →
           revokeAllStW.now < x.expires_at →
           ∀ decode a r e,
             (refresh decode x.token a r e
               (logoutAll 3 revokeAllStW).2).1.isRefreshed = false) :=
  ⟨by decide, revokeAll_flips_and_counts 3 revokeAllStW (by decide)⟩

/-- Any message of the form `Not enough tickets available. Only ...` contains
the substring the llm controller dispatches on. -/
theorem strIncludes_notEnough (s : String) :
    strIncludes "Not enough tickets"
      ("Not enough tickets available. Only " ++ s) = true := by
  unfold strIncludes
  rw [List.any_eq_true]
  refine ⟨("Not enough tickets available. Only " ++ s).toList, ?_, ?_⟩
  · exact (List.mem_tails _ _).mpr (List.suffix_refl _)
  · rw [ List.isPrefixOf_iff_prefix]
    have h1 : "Not enough tickets".toList
        <+: "Not enough tickets available. Only ".toList := by decide
    have h2 : ("Not enough tickets available. Only " ++ s).toList
        = "Not enough tickets available. Only ".toList ++ s.toList :=
      String.data_append _ _
    rw [h2]
    exact h1.trans (List.prefix_append _ _)

/-- The insufficient-inventory message is never the not-found message (their
lengths differ whatever the embedded count is). -/
theorem notEnough_message_ne_notFound (n : Int) :
    ((BookingError.notEnoughTickets n).message == "Event not found") = false := by
  apply beq_eq_false_iff_ne.mpr
  intro hcontra
  have hlen := congrArg String.length hcontra
  rw [BookingError.message] at hlen
  rw [String.length_append, String.length_append] at hlen
  have h1 : "Not enough tickets available. Only ".length = 35 := rfl
  have h2 : " tickets remaining.".length = 19 := rfl
  have h3 : "Event not found".length = 15 := rfl
  omega

/-- C8 counterexample: the single-ticket browse-and-buy path's
insufficient-inventory failure reports the fixed message
`No tickets availabe for this event`, which contains no digit at all, so it
cannot carry the remaining count (here `0`) read inside the failing call. -/
theorem single_ticket_insufficiency_reports_no_count :
    (purchaseTicketController (some 1) eventsAtZero).1
      = ClientResponse.badRequest "No tickets availabe for this event"
    ∧ ("No tickets availabe for this event".toList.all
        (fun c => !c.isDigit)) = true := by
  decide

/-- C8 (amended): an insufficient-inventory failure of the quantity-based
booking confirm operation surfaces, with status 400, the error message that
embeds exactly the `available_tickets` value the transaction read, and
leaves the store unchanged. -/
theorem llm_insufficiency_carries_remaining_count
    (db : List Event) (eid q : Int) (ev : Event)
    (hfind : findEvent eid db = some ev)
    (hins : ev.available_tickets < q) (hq : 0 < q) (hid : eid ≠ 0) :
    confirmBookingController { event_id := some eid, tickets := some q } db
      = ({ status := 400,
           error := some ("Not enough tickets available. Only "
             ++ toString ev.available_tickets ++ " tickets remaining."),
           booking := none }, db) := by
  have hq0 : ¬ (q ≤ 0) := not_le.mpr hq
  have hqne : (q == 0) = false := beq_eq_false_iff_ne.mpr (by omega)
  have hidne : (eid == 0) = false := beq_eq_false_iff_ne.mpr hid
  have hfind' : db.find? (fun e => e.id == eid) = some ev := hfind
  have hcb : confirmBooking eid q db
      = (.error (.notEnoughTickets ev.available_tickets), db) := by
    simp [confirmBooking, hfind', hins]
  have hnep : ("Not enough tickets available. Only "
      ++ toString ev.available_tickets ++ " tickets remaining.")
      ≠ "Event not found" :=
    beq_eq_false_iff_ne.mp (notEnough_message_ne_notFound ev.available_tickets)
  have hinc : strIncludes "Not enough tickets"
      ("Not enough tickets available. Only "
        ++ toString ev.available_tickets ++ " tickets remaining.") = true := by
    rw [String.append_assoc]
    exact strIncludes_notEnough _
  simp [confirmBookingController, truthyInt, hidne, hqne, hq0, hcb,
    hnep, hinc, BookingError.message]

/-- The event behind the C8 witness store: one row short of the requested
quantity. -/
def llmInsEvW : Event :=
  { id := 2, name := "Gala", date := "2025-05-05",
    available_tickets := 1, total_tickets := 8, price := 3 }

/-- C8 witness store. -/
def llmInsW : List Event := [llmInsEvW]

/-- C8 witness: the amended theorem evaluated on the concrete store — the
400 response's error string embeds the remaining count `1` that the failing
transaction read. -/
theorem llm_insufficiency_carries_count_witness :
    (findEvent 2 llmInsW = some llmInsEvW
     ∧ llmInsEvW.available_tickets < 5 ∧ 0 < (5:Int) ∧ (2:Int) ≠ 0)
    ∧ confirmBookingController { event_id := some 2, tickets := some 5 } llmInsW
        = ({ status := 400,
             error := some ("Not enough tickets available. Only "
               ++ toString llmInsEvW.available_tickets ++ " tickets remaining."),
             booking := none }, llmInsW) :=
  ⟨⟨by decide, by decide, by decide, by decide⟩,
   llm_insufficiency_carries_remaining_count llmInsW 2 5 llmInsEvW
     (by decide) (by decide) (by decide) (by decide)⟩

/-- The event behind the C9 fixtures: plenty of inventory, so a defaulted
single-ticket booking would have succeeded had the field been optional. -/
def plentyEvW : Event :=
  { id := 1, name := "Homecoming", date := "2025-10-01",
    available_tickets := 10, total_tickets := 10, price := 5 }

/-- C9 fixture store. -/
def eventsPlenty : List Event := [plentyEvW]

/-- C9 counterexample: at the llm confirm endpoint a request supplying only
`event_id` — no `tickets` field — is rejected with
`400 event_id and tickets are required` and books nothing, even though the
store has ample inventory; the quantity field is required there, not
defaulted to 1. -/
theorem llm_confirm_rejects_missing_tickets :
    confirmBookingController { event_id := some 1, tickets := none } eventsPlenty
      = ({ status := 400, error := some "event_id and tickets are required",
           booking := none }, eventsPlenty) := by
  decide

/-- C9 (amended): the two purchase endpoints treat quantity differently —
the llm confirm endpoint requires the `tickets` field and rejects any
request without it as invalid (store untouched), while the client-service
path-parameter endpoint takes no quantity at all and decrements exactly one
ticket whenever the event row exists. -/
theorem purchase_quantity_field_behavior (db : List Event) (eid : Int)
    (ev : Event) (hfind : findEvent eid db = some ev) :
    (confirmBookingController { event_id := some eid, tickets := none } db
       = ({ status := 400, error := some "event_id and tickets are required",
            booking := none }, db))
    ∧ (purchaseTicketController (some eid) db).2 = decrementEvent eid 1 db := by
  constructor
  · simp [confirmBookingController, truthyInt]
  · have hfind' : db.find? (fun e => e.id == eid) = some ev := hfind
    have h1 : (purchaseTicket eid db).2 = decrementEvent eid 1 db := by
      simp [purchaseTicket, hfind']
    have h2 : (purchaseTicketController (some eid) db).2
        = (purchaseTicket eid db).2 := by
      unfold purchaseTicketController
      cases hpt : purchaseTicket eid db with
      | mk o d2 => cases o <;> simp [hpt]
    rw [h2, h1]

/-- C9 witness: the amended endpoint-behavior theorem evaluated on the
concrete store. -/
theorem purchase_quantity_field_behavior_witness :
    findEvent 1 eventsPlenty = some plentyEvW
    ∧ ((confirmBookingController { event_id := some 1, tickets := none }
          eventsPlenty
        = ({ status := 400, error := some "event_id and tickets are required",
             booking := none }, eventsPlenty))
       ∧ (purchaseTicketController (some 1) eventsPlenty).2
           = decrementEvent 1 1 eventsPlenty) :=
  ⟨by decide,
   purchase_quantity_field_behavior eventsPlenty 1 plentyEvW (by decide)⟩
